import Mathlib

/-!
Shallow embedding of the repository's application core (src/index.js):
an HTTP server with a single route that atomically increments a cache
counter and reports it, a relational-client configuration built from
environment variables with defaults, and a fixed-URL cache client.
-/

/-- Process environment: maps variable names to optional string values,
modelling access to environment variables. -/
def Env : Type := String → Option String

/-- Connection configuration for the relational (Postgres) client. -/
structure PgConfig where
  host : String
  user : String
  password : String
  database : String
deriving DecidableEq, Repr

/-- Fallback of the source's `x || d` expression over an optional
environment string: an absent variable and the empty string are both
falsy, so each yields the default; any other string is truthy and is
used as is. -/
def jsOr (o : Option String) (d : String) : String :=
  match o with
  | none => d
  | some s => if s = "" then d else s

/-- Relational client configuration as built by the source: each field
reads an environment variable with a falsy fallback to a literal
default (DB_HOST or "db", DB_USER or "postgres", DB_PASSWORD or
"password", DB_NAME or "postgres"). -/
def pgClientConfig (env : Env) : PgConfig :=
  { host := jsOr (env "DB_HOST") "db",
    user := jsOr (env "DB_USER") "postgres",
    password := jsOr (env "DB_PASSWORD") "password",
    database := jsOr (env "DB_NAME") "postgres" }

/-- Connection configuration for the cache (Redis) client. -/
structure RedisConfig where
  url : String
deriving DecidableEq, Repr

/-- Cache client configuration as built by the source: the URL is the
string literal "redis://cache:6379"; the environment is not consulted. -/
def redisClientConfig (_env : Env) : RedisConfig :=
  { url := "redis://cache:6379" }

/-- Cache store state: maps keys to optional integer values (absent keys
are `none`). -/
def Cache : Type := String → Option Int

/-- Cache with no keys set. -/
def freshCache : Cache := fun _ => none

/-- Atomic increment of a key: an absent key is treated as 0, the stored
value becomes old value plus one, and the new value is returned
(standard INCR semantics). -/
def incr (c : Cache) (k : String) : Int × Cache :=
  let v := (c k).getD 0 + 1
  (v, fun k2 => if k2 = k then some v else c k2)

/-- An HTTP request, reduced to the parts the program inspects. -/
structure Request where
  method : String
  path : String
deriving DecidableEq, Repr

/-- An HTTP response produced by the handler. -/
structure Response where
  status : Nat
  body : String
deriving DecidableEq, Repr

/-- Response body template of the root handler:
`Hello 🚀 Visits: ${visits}`. -/
def greeting (visits : Int) : String :=
  "Hello 🚀 Visits: " ++ toString visits

/-- External effects a handler can perform on the backing stores. -/
inductive Effect where
  | cacheIncr (key : String)
deriving DecidableEq, Repr

/-- Whole observable server state: the cache store plus the relational
store's state (abstract, since the program issues no relational
operation after startup). -/
structure ServerState (π : Type) where
  cache : Cache
  pg : π

/-- Root handler (the `app.get` callback): increment key "visits" in the
cache, respond 200 with the greeting body. Returns the response, the new
server state, and the list of external-store effects performed. -/
def handleRoot {π : Type} (st : ServerState π) :
    Response × ServerState π × List Effect :=
  let (visits, cache2) := incr st.cache "visits"
  ({ status := 200, body := greeting visits },
   { st with cache := cache2 },
   [Effect.cacheIncr "visits"])

/-- Possible failures of the external cache call. -/
inductive CacheError where
  | connectionLost
  | unavailable
deriving DecidableEq, Repr

/-- Root handler with the cache round-trip made explicit as a fallible
result: `await redisClient.incr` either yields the integer or rejects,
and a rejection propagates out of the async handler (no catch exists in
the source), so no response is produced. -/
def handleRootAsync (incrResult : Except CacheError Int) :
    Except CacheError Response :=
  incrResult.bind fun visits =>
    Except.ok { status := 200, body := greeting visits }

/-- Routing table defined by the source: exactly one route, GET on the
root path. -/
def routes : List (String × String) := [("GET", "/")]

/-- Whether a request matches the single defined route. -/
def routeMatches (req : Request) : Bool :=
  req.method == "GET" && req.path == "/"

/-- Serve one request: a matching request runs the root handler; any
other request runs no program-defined handler (`none` response stands
for the framework's default not-found behavior) and touches no state. -/
def serve {π : Type} (st : ServerState π) (req : Request) :
    Option Response × ServerState π × List Effect :=
  if routeMatches req then
    let (resp, st2, effs) := handleRoot st
    (some resp, st2, effs)
  else
    (none, st, [])

/-- One top-level startup statement, with whether the program awaits its
completion before proceeding. -/
inductive StartupStep where
  | pgConnect
  | redisConnect
  | listen (port : Nat)
deriving DecidableEq, Repr

/-- A startup statement together with its awaited-ness. -/
structure StartupAction where
  step : StartupStep
  awaited : Bool
deriving DecidableEq, Repr

/-- Top-level execution order of the module: `pgClient.connect()` (not
awaited), `redisClient.connect()` (not awaited), `app.listen(3000)`. -/
def startupSequence : List StartupAction :=
  [⟨StartupStep.pgConnect, false⟩,
   ⟨StartupStep.redisConnect, false⟩,
   ⟨StartupStep.listen 3000, false⟩]

/-- Values returned by n sequential root requests, starting from the
given cache state. -/
def serveSeq : Nat → Cache → List Int
  | 0, _ => []
  | Nat.succ n, c => (incr c "visits").1 :: serveSeq n (incr c "visits").2

/-- Completed-increment order of an execution: each request performs one
atomic increment; the schedule lists request identifiers in the order
their increments complete. Returns each request paired with the value it
received. -/
def runConc {ρ : Type} : List ρ → Cache → List (ρ × Int)
  | [], _ => []
  | r :: rs, c =>
      (r, (incr c "visits").1) :: runConc rs (incr c "visits").2

/-- Environment in which every variable is set to an alternative cache
URL, used to show the cache address ignores the environment. -/
def envAllRedisOverride : Env := fun _ => some "redis://other:6379"

/-- Environment setting DB_HOST to the empty string, which is falsy in
the source's fallback expression. -/
def envEmptyHost : Env := fun k => if k = "DB_HOST" then some "" else none

/-- Sample environment setting the four relational overrides. -/
def envSample : Env := fun k =>
  if k = "DB_HOST" then some "h1"
  else if k = "DB_USER" then some "u1"
  else if k = "DB_PASSWORD" then some "p1"
  else if k = "DB_NAME" then some "d1"
  else none

theorem incr_fst (c : Cache) (k : String) :
    (incr c k).1 = (c k).getD 0 + 1 := rfl

theorem incr_snd_self (c : Cache) (k : String) :
    (incr c k).2 k = some ((c k).getD 0 + 1) := by
  simp [incr]

theorem incr_snd_other (c : Cache) (k k2 : String) (h : k2 ≠ k) :
    (incr c k).2 k2 = c k2 := by
  simp [incr, h]

theorem serveSeq_eq (n : Nat) (c : Cache) :
    serveSeq n c
      = (List.range n).map (fun i : Nat => (c "visits").getD 0 + 1 + (i : Int)) := by
  induction n generalizing c with
  | zero => simp [serveSeq]
  | succ n ih =>
    rw [serveSeq, ih, List.range_succ_eq_map]
    simp only [incr_fst, incr_snd_self, Option.getD_some, List.map_cons,
      List.map_map, Nat.cast_zero, add_zero, Function.comp]
    congr 1
    apply List.map_congr_left
    intro i _
    simp only [Function.comp_apply]
    push_cast
    ring

theorem runConc_map_snd {ρ : Type} (sched : List ρ) (c : Cache) :
    (runConc sched c).map Prod.snd
      = (List.range sched.length).map (fun i : Nat => (c "visits").getD 0 + 1 + (i : Int)) := by
  induction sched generalizing c with
  | nil => simp [runConc]
  | cons r rs ih =>
    rw [runConc, List.length_cons, List.range_succ_eq_map]
    simp only [List.map_cons, List.map_map, incr_fst, incr_snd_self, ih,
      Option.getD_some, Nat.cast_zero, add_zero, Function.comp]
    congr 1
    apply List.map_congr_left
    intro i _
    simp only [Function.comp_apply]
    push_cast
    ring

theorem runConc_map_fst {ρ : Type} (sched : List ρ) (c : Cache) :
    (runConc sched c).map Prod.fst = sched := by
  induction sched generalizing c with
  | nil => simp [runConc]
  | cons r rs ih => simp [runConc, ih]

/-- C1: every handled GET request to the root path responds with status
200 and a body that is exactly the fixed greeting followed by the
decimal rendering of the integer returned by the cache increment of key
"visits" performed for that request; hence the body always matches the
literal pattern of the greeting followed by an integer. -/
theorem C1_root_response {π : Type} (st : ServerState π) :
    (handleRoot st).1.status = 200 ∧
    (handleRoot st).1.body = greeting (incr st.cache "visits").1 ∧
    ∃ n : Int, (handleRoot st).1.body = "Hello 🚀 Visits: " ++ toString n := by
  refine ⟨rfl, rfl, (incr st.cache "visits").1, rfl⟩

/-- C2: starting from a fresh empty cache, n sequential root requests
return the counter values 1, 2, …, n in order; in particular the first
request returns exactly 1. -/
theorem C2_sequential_counts (n : Nat) :
    serveSeq n freshCache = (List.range n).map (fun i : Nat => (i : Int) + 1) ∧
    (0 < n → (serveSeq n freshCache).head? = some 1) := by
  have h := serveSeq_eq n freshCache
  have hb : (freshCache "visits").getD 0 = 0 := rfl
  rw [hb] at h
  have hmain : serveSeq n freshCache
      = (List.range n).map (fun i : Nat => (i : Int) + 1) := by
    rw [h]
    apply List.map_congr_left
    intro i _
    push_cast
    ring
  refine ⟨hmain, ?_⟩
  intro hn
  rw [hmain]
  cases n with
  | zero => omega
  | succ m =>
    rw [List.range_succ_eq_map]
    simp

/-- Closed instance of C2 at n = 3, discharging the positivity
hypothesis. -/
theorem C2_sequential_counts_witness :
    0 < 3 ∧ (serveSeq 3 freshCache).head? = some 1 :=
  ⟨by decide, (C2_sequential_counts 3).2 (by decide)⟩

/-- C3: with the cache increment atomic, any completion order of n
requests assigns to the i-th completed request the value i + 1 (the
number of completed increments up to and including it), and the multiset
of values returned across the execution is exactly the integers 1 to n,
with no duplicate and no gap. -/
theorem C3_interleaved_counts {ρ : Type} (sched : List ρ) :
    (runConc sched freshCache).map Prod.snd
        = (List.range sched.length).map (fun i : Nat => (i : Int) + 1) ∧
    (∀ i, i < sched.length →
        ((runConc sched freshCache).map Prod.snd).getD i 0 = (i : Int) + 1) ∧
    Multiset.ofList ((runConc sched freshCache).map Prod.snd)
        = Multiset.ofList ((List.range sched.length).map (fun i : Nat => (i : Int) + 1)) := by
  have h := runConc_map_snd sched freshCache
  have hb : (freshCache "visits").getD 0 = 0 := rfl
  rw [hb] at h
  have hmain : (runConc sched freshCache).map Prod.snd
      = (List.range sched.length).map (fun i : Nat => (i : Int) + 1) := by
    rw [h]
    apply List.map_congr_left
    intro i _
    push_cast
    ring
  refine ⟨hmain, ?_, by rw [hmain]⟩
  intro i hi
  rw [hmain]
  rw [List.getD_eq_getElem _ _ (by simpa using hi)]
  simp

/-- Closed instance of C3 on a three-request schedule, discharging the
index-bound hypothesis. -/
theorem C3_interleaved_counts_witness :
    ((runConc ["b", "a", "c"] freshCache).map Prod.snd).getD 1 0 = 2 := by
  have h := (C3_interleaved_counts ["b", "a", "c"]).2.1 1 (by decide)
  norm_num at h
  exact h

/-- C10: the cache client's connection URL is the string constant
"redis://cache:6379" in every environment; no environment variable
affects the cache connection address. -/
theorem C10_cache_url_constant (env : Env) :
    redisClientConfig env = RedisConfig.mk "redis://cache:6379" := rfl

/-- Counterexample to C4: first, even in an environment where every
variable is set to an alternative cache URL, the cache client's
connection URL stays the hard-coded constant, so no environment-style
option overrides it; second, a relational override set to the empty
string does not become the connection parameter, since the source's
falsy fallback replaces it with the default. -/
theorem C4_claim_counterexample :
    (envAllRedisOverride "REDIS_URL" = some "redis://other:6379" ∧
      (redisClientConfig envAllRedisOverride).url ≠ "redis://other:6379") ∧
    (envEmptyHost "DB_HOST" = some "" ∧
      (pgClientConfig envEmptyHost).host ≠ "") := by
  refine ⟨⟨rfl, by decide⟩, rfl, by decide⟩

/-- C4 amended: the relational store's connection parameters (host,
user, password, database name) are each overridable via the environment
when the provided value is non-empty (an empty-string value is falsy and
falls back to the default), while the cache store's connection URL is
the fixed constant "redis://cache:6379" in every environment and is not
overridable. -/
theorem C4_config_overrides (env : Env) (h u p d : String) :
    (env "DB_HOST" = some h → h ≠ "" → (pgClientConfig env).host = h) ∧
    (env "DB_USER" = some u → u ≠ "" → (pgClientConfig env).user = u) ∧
    (env "DB_PASSWORD" = some p → p ≠ "" →
      (pgClientConfig env).password = p) ∧
    (env "DB_NAME" = some d → d ≠ "" → (pgClientConfig env).database = d) ∧
    (redisClientConfig env).url = "redis://cache:6379" := by
  refine ⟨?_, ?_, ?_, ?_, rfl⟩ <;> intro hv hne <;>
    simp [pgClientConfig, jsOr, hv, hne]

/-- Closed instance of C4 on a concrete environment, discharging each
override hypothesis. -/
theorem C4_config_overrides_witness :
    (pgClientConfig envSample).host = "h1" ∧
    (pgClientConfig envSample).user = "u1" ∧
    (pgClientConfig envSample).password = "p1" ∧
    (pgClientConfig envSample).database = "d1" ∧
    (redisClientConfig envSample).url = "redis://cache:6379" := by
  have h := C4_config_overrides envSample "h1" "u1" "p1" "d1"
  exact ⟨h.1 (by decide) (by decide), h.2.1 (by decide) (by decide),
    h.2.2.1 (by decide) (by decide), h.2.2.2.1 (by decide) (by decide),
    h.2.2.2.2⟩

/-- C5: the root handler's only external-state mutation is a single
increment by one of cache key "visits": every other cache key is
untouched, the relational store's state is unchanged, and the effect
trace is exactly one cache increment of "visits". -/
theorem C5_handler_frame {π : Type} (st : ServerState π) :
    (handleRoot st).2.1.pg = st.pg ∧
    (handleRoot st).2.1.cache "visits" = some ((st.cache "visits").getD 0 + 1) ∧
    (∀ k, k ≠ "visits" → (handleRoot st).2.1.cache k = st.cache k) ∧
    (handleRoot st).2.2 = [Effect.cacheIncr "visits"] := by
  refine ⟨rfl, incr_snd_self st.cache "visits", ?_, rfl⟩
  intro k hk
  exact incr_snd_other st.cache "visits" k hk

/-- Closed instance of C5 on a fresh state, discharging the
other-key hypothesis at the key "other". -/
theorem C5_handler_frame_witness :
    (handleRoot (ServerState.mk freshCache 0)).2.1.cache "other"
        = freshCache "other" ∧
    (handleRoot (ServerState.mk freshCache 0)).2.2
        = [Effect.cacheIncr "visits"] := by
  have h := C5_handler_frame (ServerState.mk freshCache (0 : Nat))
  exact ⟨h.2.2.1 "other" (by decide), h.2.2.2⟩

/-- C6: when the cache increment rejects, the handler has no error path:
the rejection propagates out unchanged and no 200 greeting response is
produced for that request. -/
theorem C6_cache_failure_propagates (e : CacheError) :
    handleRootAsync (Except.error e) = Except.error e ∧
    ∀ resp : Response, handleRootAsync (Except.error e) ≠ Except.ok resp := by
  refine ⟨rfl, ?_⟩
  intro resp hresp
  rw [show handleRootAsync (Except.error e) = Except.error e from rfl] at hresp
  exact Except.noConfusion hresp

/-- Closed instance of C6 at a concrete cache error and response. -/
theorem C6_cache_failure_propagates_witness :
    handleRootAsync (Except.error CacheError.connectionLost)
        = Except.error CacheError.connectionLost ∧
    handleRootAsync (Except.error CacheError.connectionLost)
        ≠ Except.ok (Response.mk 200 (greeting 1)) :=
  ⟨(C6_cache_failure_propagates CacheError.connectionLost).1,
   (C6_cache_failure_propagates CacheError.connectionLost).2
      (Response.mk 200 (greeting 1))⟩

/-- C7: startup performs, in order, the relational connect, then the
cache connect, then listening on the fixed port 3000, and no startup
action is awaited: listening is entered without awaiting either
connection's outcome. -/
theorem C7_startup_order :
    startupSequence.map StartupAction.step
        = [StartupStep.pgConnect, StartupStep.redisConnect,
           StartupStep.listen 3000] ∧
    ∀ a ∈ startupSequence, a.awaited = false := by
  refine ⟨rfl, ?_⟩
  intro a ha
  fin_cases ha <;> rfl

/-- Closed instance of C7, discharging the membership hypothesis at the
relational connect action. -/
theorem C7_startup_order_witness :
    StartupAction.mk StartupStep.pgConnect false ∈ startupSequence ∧
    (StartupAction.mk StartupStep.pgConnect false).awaited = false :=
  ⟨by decide, C7_startup_order.2 (StartupAction.mk StartupStep.pgConnect false)
      (by decide)⟩

/-- C8: the routing table contains exactly the single route GET on the
root path, and any request to another method or path runs no
program-defined handler, leaves the state unchanged, and performs no
cache increment. -/
theorem C8_single_route {π : Type} (st : ServerState π) (req : Request) :
    (routeMatches req = true ↔ (req.method, req.path) ∈ routes) ∧
    (req.method ≠ "GET" ∨ req.path ≠ "/" →
      (serve st req).1 = none ∧ (serve st req).2.1 = st ∧
        (serve st req).2.2 = []) := by
  constructor
  · simp [routeMatches, routes, Prod.ext_iff]
  · intro hmis
    have hfalse : routeMatches req = false := by
      rcases hmis with hm | hm <;> simp [routeMatches, hm]
    simp [serve, hfalse]

/-- Closed instance of C8 at a POST request to the root path,
discharging the mismatch hypothesis. -/
theorem C8_single_route_witness :
    (serve (ServerState.mk freshCache 0) (Request.mk "POST" "/")).1 = none ∧
    (serve (ServerState.mk freshCache 0) (Request.mk "POST" "/")).2.2 = [] := by
  have h := (C8_single_route (ServerState.mk freshCache (0 : Nat))
      (Request.mk "POST" "/")).2 (Or.inl (by decide))
  exact ⟨h.1, h.2.2⟩

/-- Counterexample to C9: DB_HOST set to the empty string does not
override the default — the source's falsy fallback yields the default
host "db" instead of the provided value. -/
theorem C9_empty_override_counterexample :
    envEmptyHost "DB_HOST" = some "" ∧
    (pgClientConfig envEmptyHost).host = "db" ∧
    (pgClientConfig envEmptyHost).host ≠ "" := by
  refine ⟨rfl, by decide, by decide⟩

/-- C9 amended: the relational connection parameters default to host
"db", user "postgres", password "password", database "postgres" when the
overrides are absent, and each equals the corresponding DB_HOST,
DB_USER, DB_PASSWORD, or DB_NAME value when that variable is set to a
non-empty string; a variable set to the empty string is falsy and falls
back to the default, as DB_HOST does to "db". -/
theorem C9_pg_defaults_and_overrides (env : Env) (v : String) :
    pgClientConfig (fun _ => none)
        = PgConfig.mk "db" "postgres" "password" "postgres" ∧
    (v ≠ "" →
      (env "DB_HOST" = some v → (pgClientConfig env).host = v) ∧
      (env "DB_USER" = some v → (pgClientConfig env).user = v) ∧
      (env "DB_PASSWORD" = some v → (pgClientConfig env).password = v) ∧
      (env "DB_NAME" = some v → (pgClientConfig env).database = v)) ∧
    (env "DB_HOST" = some "" → (pgClientConfig env).host = "db") := by
  refine ⟨rfl, ?_, ?_⟩
  · intro hne
    refine ⟨?_, ?_, ?_, ?_⟩ <;> intro hv <;> simp [pgClientConfig, jsOr, hv, hne]
  · intro hv
    simp [pgClientConfig, jsOr, hv]

/-- Closed instance of C9: the defaults hold, a DB_HOST set to a
non-empty value is used, and a DB_HOST set to the empty string falls
back to the default, discharging the respective hypotheses. -/
theorem C9_pg_defaults_and_overrides_witness :
    (pgClientConfig envSample).host = "h1" ∧
    pgClientConfig (fun _ => none)
        = PgConfig.mk "db" "postgres" "password" "postgres" ∧
    (pgClientConfig envEmptyHost).host = "db" := by
  have h := C9_pg_defaults_and_overrides envSample "h1"
  have h2 := C9_pg_defaults_and_overrides envEmptyHost "x"
  exact ⟨(h.2.1 (by decide)).1 (by decide), h.1, h2.2.2 (by decide)⟩
